import Mathlib

/-!
Shallow embedding of the E-Boda ride-hailing backend's real-time
coordination core: the ride state machine and matching/retry queue from
`backend/routes/ride_routes.py`, and the WebSocket connection manager
from `backend/sockets/ride_socket.py`.

Python dictionaries are modelled as association lists over `String`
keys; Python sets of user/room ids as duplicate-free `List String`
(`set.add` guards membership, `set.discard` filters); wall-clock
readings (`time.time()`, `datetime.utcnow()`) are passed in as explicit
`now` parameters (seconds, as `ℚ`); database and transport
collaborators (MongoDB queries, WebSocket sends) are passed in as
oracle parameters and their writes are returned as explicit outputs.
`HTTPException` is modelled with `Except`.
-/

namespace EBoda

/-- Python `dict` access `d.get(k)` / `d[k]` on an association list. -/
def dlookup {α : Type} : List (String × α) → String → Option α
  | [], _ => none
  | (k', v) :: rest, k => if k' = k then some v else dlookup rest k

/-- Python `del d[k]` (also used to state that a key is absent). -/
def dremove {α : Type} (l : List (String × α)) (k : String) : List (String × α) :=
  l.filter (fun p => p.1 ≠ k)

/-- Python `d[k] = v`: replace any existing binding of `k`. -/
def dinsert {α : Type} (l : List (String × α)) (k : String) (v : α) : List (String × α) :=
  dremove l k ++ [(k, v)]

/-- Number of bindings of key `k` (a Python dict always has 0 or 1). -/
def countKey {α : Type} (l : List (String × α)) (k : String) : Nat :=
  (l.filter (fun p => p.1 = k)).length

/-- The keys are pairwise distinct, as in a Python dict. -/
def keysNodup {α : Type} (l : List (String × α)) : Prop :=
  (l.map Prod.fst).Nodup

/-- An outbound WebSocket message / close, reduced to the fields the
specification talks about (event type, ride, reason, recipient). -/
inductive Event where
  | no_driver_found (ride_id reason recipient : String)
  | ride_assigned (ride_id recipient : String)
  | ride_accepted (ride_id recipient : String)
  | ride_started (ride_id recipient : String)
  | ride_completed (ride_id recipient : String)
  | ride_cancelled_broadcast (ride_id : String)
  | disconnected (user_id reason : String)
deriving DecidableEq

/-- A raised `fastapi.HTTPException`. -/
structure HTTPError where
  code : Nat
  detail : String
deriving DecidableEq

/-- The fields of a `User` document consulted or mutated by the
embedded handlers. -/
structure UserRec where
  id : String
  role : String
  is_available : Bool
  is_active : Bool
  total_rides : Nat
  location : Option (ℚ × ℚ)
deriving DecidableEq

/-- The fields of a `Ride` document consulted or mutated by the
embedded handlers; referenced documents are carried by id. -/
structure Ride where
  id : String
  rider_id : String
  driver_id : Option String
  status : String
  created_at : Option ℚ
  accepted_at : Option ℚ
  started_at : Option ℚ
  completed_at : Option ℚ
  cancelled_at : Option ℚ
  updated_at : Option ℚ
  cancellation_reason : Option String
  cancelled_by : Option String
  cancellation_charge : Option ℚ
  estimated_fare : ℚ
  final_fare : Option ℚ
deriving DecidableEq

end EBoda

namespace EBoda.ride_socket

def LOCATION_THROTTLE_MS : ℚ := 400
def LOCATION_MIN_DISTANCE_METERS : ℚ := 1

/-- `VALID_STATE_TRANSITIONS` from `backend/sockets/ride_socket.py`. -/
def VALID_STATE_TRANSITIONS : List (String × List String) :=
  [("pending", ["accepted", "cancelled"]),
   ("accepted", ["in_progress", "cancelled"]),
   ("in_progress", ["completed", "cancelled"]),
   ("completed", []),
   ("cancelled", [])]

/-- `is_valid_state_transition` from `backend/sockets/ride_socket.py`. -/
def is_valid_state_transition (current_status new_status : String) : Bool :=
  let valid_next := (EBoda.dlookup VALID_STATE_TRANSITIONS current_status).getD []
  valid_next.contains new_status

/-- The `ClientConnection` dataclass. Timestamps are in seconds except
`last_location_broadcast`, which the source keeps in milliseconds. -/
structure ClientConnection where
  user_id : String
  role : String
  connected_at : ℚ
  last_heartbeat : ℚ
  last_activity : ℚ
  is_alive : Bool
  joined_rooms : List String
  last_location_broadcast : ℚ
  last_location_coords : Option (ℚ × ℚ)
  last_pong : ℚ
deriving DecidableEq

/-- A freshly constructed `ClientConnection(websocket, user_id, role)`:
the dataclass defaults fill the remaining fields. -/
def ClientConnection.fresh (now : ℚ) (uid role : String) : ClientConnection :=
  { user_id := uid, role := role, connected_at := now, last_heartbeat := now,
    last_activity := now, is_alive := true, joined_rooms := [],
    last_location_broadcast := 0, last_location_coords := none, last_pong := 0 }

/-- `ClientConnection.should_throttle_location`. `now_ms` stands for
`time.time() * 1000`. The source compares
`sqrt(dist_lat**2 + dist_lon**2)` against the 1-metre threshold; since
`sqrt` is monotone and `sqrt x ≥ 1 ↔ x ≥ 1`, the embedding compares the
squared distance against `1` to stay inside `ℚ`. -/
def ClientConnection.should_throttle_location (c : ClientConnection)
    (now_ms lat lon : ℚ) : Bool :=
  let time_since_last := now_ms - c.last_location_broadcast
  if LOCATION_THROTTLE_MS ≤ time_since_last then false
  else
    match c.last_location_coords with
    | some (prev_lat, prev_lon) =>
      let dist_lat := |lat - prev_lat| * 111000
      let dist_lon := |lon - prev_lon| * 111000 * (9 / 10)
      if LOCATION_MIN_DISTANCE_METERS ≤ dist_lat ^ 2 + dist_lon ^ 2 then false
      else true
    | none => true

/-- `ClientConnection.update_location_state`. -/
def ClientConnection.update_location_state (c : ClientConnection)
    (now_ms lat lon : ℚ) : ClientConnection :=
  { c with last_location_broadcast := now_ms, last_location_coords := some (lat, lon) }

/-- The `RideRoom` dataclass. -/
structure RideRoom where
  ride_id : String
  participants : List String
  created_at : ℚ
  last_driver_location : Option (ℚ × ℚ)
deriving DecidableEq

def RideRoom.is_empty (r : RideRoom) : Bool := r.participants.isEmpty

/-- The mutable state owned by `ConnectionManager`: the connection
table and the room table. -/
structure ManagerState where
  connections : List (String × ClientConnection)
  rooms : List (String × RideRoom)
deriving DecidableEq

def ManagerState.empty : ManagerState := { connections := [], rooms := [] }

/-- `ConnectionManager.get_connection`. -/
def get_connection (st : ManagerState) (uid : String) : Option ClientConnection :=
  dlookup st.connections uid

/-- `ConnectionManager.is_connected`. -/
def is_connected (st : ManagerState) (uid : String) : Bool :=
  match get_connection st uid with
  | some c => c.is_alive
  | none => false

/-- After a successful room join the source adds the ride to the
session's `joined_rooms` set (when the user has a registered
connection). -/
def record_joined_room (st : ManagerState) (rooms : List (String × RideRoom))
    (rid uid : String) : ManagerState :=
  match dlookup st.connections uid with
  | some c =>
      let c' := { c with joined_rooms :=
          if c.joined_rooms.contains rid then c.joined_rooms
          else c.joined_rooms ++ [rid] }
      { connections := dinsert st.connections uid c', rooms := rooms }
  | none => { st with rooms := rooms }

/-- `ConnectionManager.join_room`: create the room if absent, refuse a
duplicate membership, otherwise add the participant. The source first
inserts an empty `RideRoom` when the key is missing and then checks
membership; both branches are folded into one `match`. -/
def join_room (now : ℚ) (st : ManagerState) (rid uid : String) : ManagerState × Bool :=
  match dlookup st.rooms rid with
  | none =>
      let room : RideRoom :=
        { ride_id := rid, participants := [uid], created_at := now,
          last_driver_location := none }
      (record_joined_room st (dinsert st.rooms rid room) rid uid, true)
  | some room =>
      if room.participants.contains uid then (st, false)
      else
        (record_joined_room st
          (dinsert st.rooms rid ({ room with participants := room.participants ++ [uid] }))
          rid uid, true)

/-- `ConnectionManager.leave_room`: discard the member, delete the room
immediately if it became empty, drop the ride from the session's
`joined_rooms`. -/
def leave_room (st : ManagerState) (rid uid : String) : ManagerState × Bool :=
  match dlookup st.rooms rid with
  | none => (st, false)
  | some room =>
      let room' := { room with participants := room.participants.filter (fun v => v ≠ uid) }
      let rooms' :=
        if room'.is_empty then dremove st.rooms rid else dinsert st.rooms rid room'
      let st1 : ManagerState := { st with rooms := rooms' }
      let st2 :=
        match dlookup st1.connections uid with
        | some c =>
            let c' := { c with joined_rooms := c.joined_rooms.filter (fun r => r ≠ rid) }
            { st1 with connections := dinsert st1.connections uid c' }
        | none => st1
      (st2, true)

/-- `ConnectionManager.get_room_participants` (a copy of the set, or
empty when the room does not exist). -/
def get_room_participants (st : ManagerState) (rid : String) : List String :=
  match dlookup st.rooms rid with
  | some room => room.participants
  | none => []

/-- `ConnectionManager.is_room_active`. -/
def is_room_active (st : ManagerState) (rid : String) : Bool :=
  match dlookup st.rooms rid with
  | some room => !room.is_empty
  | none => false

/-- `ConnectionManager.disconnect`: pop the connection; if one was
registered, mark it dead, leave every joined room, and close the handle
(best effort) with the given reason. -/
def disconnect (st : ManagerState) (uid reason : String) : ManagerState × List Event :=
  match dlookup st.connections uid with
  | none => (st, [])
  | some conn =>
      let st1 : ManagerState := { st with connections := dremove st.connections uid }
      let st2 := conn.joined_rooms.foldl (fun s r => (leave_room s r uid).1) st1
      (st2, [Event.disconnected uid reason])

/-- `ConnectionManager.connect`: if a connection for `user_id` already
exists, disconnect it first with reason "New connection established",
then accept and register the new one. -/
def connect (now : ℚ) (st : ManagerState) (uid role : String) : ManagerState × List Event :=
  let prior :=
    if (dlookup st.connections uid).isSome then
      disconnect st uid "New connection established"
    else (st, [])
  let conn := ClientConnection.fresh now uid role
  ({ prior.1 with connections := dinsert prior.1.connections uid conn }, prior.2)

/-- The outcome of one `send_to_user` call: the target must be
registered and alive, and the transport write must succeed within the
timeout (`transport_ok` is the oracle for the latter; a failed send also
marks the target dead, which cannot influence the other, distinct
recipients of the same broadcast). -/
def send_to_user (st : ManagerState) (transport_ok : String → Bool) (uid : String) : Bool :=
  match dlookup st.connections uid with
  | none => false
  | some c => c.is_alive && transport_ok uid

/-- The recipient set of `broadcast_to_room`: the membership snapshot
minus the excluded user. `if exclude_user:` is a Python truthiness
test, so `None` and the empty string both mean "no exclusion". -/
def broadcast_recipients (st : ManagerState) (rid : String)
    (exclude_user : Option String) : List String :=
  let participants := get_room_participants st rid
  match exclude_user with
  | some u => if u = "" then participants else participants.filter (fun v => v ≠ u)
  | none => participants

/-- `ConnectionManager.broadcast_to_room`: returns the number of
successful sends among the recipients. -/
def broadcast_to_room (st : ManagerState) (transport_ok : String → Bool) (rid : String)
    (exclude_user : Option String) : Nat :=
  let participants := get_room_participants st rid
  if participants.isEmpty then 0
  else ((broadcast_recipients st rid exclude_user).filter (send_to_user st transport_ok)).length

end EBoda.ride_socket

namespace EBoda.ride_routes

/-- `VALID_STATE_TRANSITIONS` from `backend/routes/ride_routes.py`
(the same table, duplicated in the source). -/
def VALID_STATE_TRANSITIONS : List (String × List String) :=
  [("pending", ["accepted", "cancelled"]),
   ("accepted", ["in_progress", "cancelled"]),
   ("in_progress", ["completed", "cancelled"]),
   ("completed", []),
   ("cancelled", [])]

/-- `validate_ride_transition` from `backend/routes/ride_routes.py`. -/
def validate_ride_transition (current_status new_status : String) : Bool :=
  let valid_next := (EBoda.dlookup VALID_STATE_TRANSITIONS current_status).getD []
  valid_next.contains new_status

def PENDING_RIDE_TTL_MINUTES : ℚ := 10
def MAX_ASSIGNMENT_ATTEMPTS : Nat := 5

/-- One value of `PENDING_RIDES_QUEUE`:
`{"created_at": ..., "attempts": ..., "rider_id": ...}`. -/
structure PendingEntry where
  created_at : ℚ
  attempts : Nat
  rider_id : String
deriving DecidableEq

/-- The in-memory `PENDING_RIDES_QUEUE` dict, keyed by ride id. -/
abbrev Queue := List (String × PendingEntry)

/-- `if rid not in ride_rooms: ride_rooms[rid] = set()` through the
backward-compatible `RideRoomsProxy`. -/
def room_create_if_absent (now : ℚ) (rooms : List (String × ride_socket.RideRoom))
    (rid : String) : List (String × ride_socket.RideRoom) :=
  match dlookup rooms rid with
  | some _ => rooms
  | none =>
      dinsert rooms rid
        { ride_id := rid, participants := [], created_at := now,
          last_driver_location := none }

/-- `ride_rooms[rid].add(uid)` through the proxy (a Python `set.add`). -/
def room_add (rooms : List (String × ride_socket.RideRoom)) (rid uid : String) :
    List (String × ride_socket.RideRoom) :=
  match dlookup rooms rid with
  | some room =>
      let room' := { room with participants :=
          if room.participants.contains uid then room.participants
          else room.participants ++ [uid] }
      dinsert rooms rid room'
  | none => rooms

/-- Output state of `accept_ride`: the saved ride, the saved driver
record, the room table after the proxy mutations, and the messages
pushed over the socket. -/
structure AcceptOutput where
  ride : Ride
  driver : UserRec
  rooms : List (String × ride_socket.RideRoom)
  events : List Event
deriving DecidableEq

/-- `accept_ride` (`POST /{ride_id}/accept`), for an existing ride. -/
def accept_ride (now : ℚ) (ride : Ride) (current_user : UserRec)
    (rooms : List (String × ride_socket.RideRoom)) :
    Except HTTPError AcceptOutput :=
  if current_user.role ≠ "driver" then
    .error { code := 403, detail := "Only drivers can accept rides" }
  else if ¬ current_user.is_available then
    .error { code := 400, detail := "You must be available to accept rides" }
  else if ¬ validate_ride_transition ride.status "accepted" then
    .error { code := 400, detail := "Cannot accept ride with status: " ++ ride.status }
  else
    let ride' := { ride with
      driver_id := some current_user.id, status := "accepted",
      accepted_at := some now, updated_at := some now }
    let rooms1 := room_create_if_absent now rooms ride.id
    let rooms2 := room_add (room_add rooms1 ride.id current_user.id) ride.id ride.rider_id
    .ok { ride := ride', driver := { current_user with is_available := false },
          rooms := rooms2, events := [Event.ride_accepted ride.id ride.rider_id] }

/-- `start_ride` (`POST /{ride_id}/start`), for an existing ride. -/
def start_ride (now : ℚ) (ride : Ride) (current_user_id : String) :
    Except HTTPError (Ride × List Event) :=
  if ride.driver_id ≠ some current_user_id then
    .error { code := 403, detail := "Only the assigned driver can start this ride" }
  else if ¬ validate_ride_transition ride.status "in_progress" then
    .error { code := 400, detail := "Cannot start ride with status: " ++ ride.status }
  else
    let ride' := { ride with
      status := "in_progress", started_at := some now, updated_at := some now }
    .ok (ride', [Event.ride_started ride.id ride.rider_id])

/-- `complete_ride` (`POST /{ride_id}/complete`), for an existing ride:
returns the saved ride, driver and rider records and the messages. -/
def complete_ride (now : ℚ) (ride : Ride) (current_user rider : UserRec) :
    Except HTTPError (Ride × UserRec × UserRec × List Event) :=
  if ride.driver_id ≠ some current_user.id then
    .error { code := 403, detail := "Only the assigned driver can complete this ride" }
  else if ¬ validate_ride_transition ride.status "completed" then
    .error { code := 400, detail := "Cannot complete ride with status: " ++ ride.status }
  else
    let ride' := { ride with
      status := "completed", completed_at := some now,
      updated_at := some now, final_fare := some ride.estimated_fare }
    let driver' := { current_user with
      is_available := true, total_rides := current_user.total_rides + 1 }
    let rider' := { rider with total_rides := rider.total_rides + 1 }
    .ok (ride', driver', rider', [Event.ride_completed ride.id ride.rider_id])

/-- The `StatusUpdate` request body; the pydantic `pattern` regex
restricts `status` to accepted / in_progress / completed / cancelled. -/
structure StatusUpdate where
  status : String
  cancellation_reason : Option String
  final_fare : Option ℚ
deriving DecidableEq

def StatusUpdate.pattern_ok (d : StatusUpdate) : Bool :=
  ["accepted", "in_progress", "completed", "cancelled"].contains d.status

/-- Output state of `update_ride_status`. -/
structure StatusOutput where
  ride : Ride
  driver : Option UserRec
  rider : UserRec
  queue : Queue
  result_success : Bool
  result_message : String
deriving DecidableEq

/-- `update_ride_status` (`POST /{ride_id}/status`), for an existing
ride; `driver` is the record referenced by `ride.driver_id` (if any)
and `rider` the one referenced by `ride.rider_id`. The handler never
touches `PENDING_RIDES_QUEUE`, so the queue is passed through
unchanged. -/
def update_ride_status (now : ℚ) (ride : Ride) (driver : Option UserRec)
    (rider : UserRec) (current_user : UserRec) (data : StatusUpdate) (queue : Queue) :
    Except HTTPError StatusOutput :=
  let is_rider : Bool := ride.rider_id = current_user.id
  let is_driver : Bool := ride.driver_id = some current_user.id
  if ¬ (is_rider || is_driver) then
    .error { code := 403, detail := "You are not authorized to update this ride" }
  else if is_rider && current_user.role = "rider" && data.status ≠ "cancelled" then
    .error { code := 403, detail := "Riders can only cancel rides" }
  else
    let ride1 := { ride with status := data.status, updated_at := some now }
    let msg := "Ride status updated to " ++ data.status
    if data.status = "in_progress" then
      .ok { ride := { ride1 with started_at := some now }, driver := driver,
            rider := rider, queue := queue, result_success := true, result_message := msg }
    else if data.status = "completed" then
      -- `if data.final_fare:` is a truthiness test: None and 0.0 both
      -- fall back to the estimated fare
      let fare :=
        match data.final_fare with
        | some f => if f ≠ 0 then f else ride.estimated_fare
        | none => ride.estimated_fare
      let driver' := driver.map fun d =>
        { d with is_available := true, total_rides := d.total_rides + 1 }
      .ok { ride := { ride1 with completed_at := some now, final_fare := some fare },
            driver := driver',
            rider := { rider with total_rides := rider.total_rides + 1 },
            queue := queue, result_success := true, result_message := msg }
    else if data.status = "cancelled" then
      let driver' := driver.map fun d => { d with is_available := true }
      let ride2 := { ride1 with
        cancelled_at := some now, cancellation_reason := data.cancellation_reason }
      .ok { ride := ride2, driver := driver', rider := rider, queue := queue,
            result_success := true, result_message := msg }
    else
      .ok { ride := ride1, driver := driver, rider := rider, queue := queue,
            result_success := true, result_message := msg }

/-- The JSON body returned by `cancel_ride`; fields absent from the
early terminal-state return are `none`. -/
structure CancelResult where
  success : Bool
  reason : Option String
  message : String
  charge_applicable : Option Bool
  charge_amount : Option ℚ
deriving DecidableEq

/-- Output state of `cancel_ride`. The handler reads the room table
only to broadcast `ride_cancelled`; it never mutates it. -/
structure CancelOutput where
  ride : Ride
  driver : Option UserRec
  queue : Queue
  events : List Event
  result : CancelResult
deriving DecidableEq

/-- `cancel_ride` (`POST /{ride_id}/cancel`), for an existing ride.
`allow_trip_cancellation` and `cancellation_fee` come from the
environment (`ALLOW_CANCELLATION_DURING_TRIP`,
`CANCELLATION_FEE_AMOUNT`); `driver` is the record referenced by
`ride.driver_id` (if any). -/
def cancel_ride (now : ℚ) (allow_trip_cancellation : Bool) (cancellation_fee : ℚ)
    (ride : Ride) (driver : Option UserRec) (current_user : UserRec)
    (reason reason_detail : String) (queue : Queue) :
    Except HTTPError CancelOutput :=
  let is_rider : Bool := ride.rider_id = current_user.id
  let is_driver : Bool := ride.driver_id = some current_user.id
  if ¬ (is_rider || is_driver) then
    .error { code := 403, detail := "You are not authorized to cancel this ride" }
  else if ride.status = "in_progress" && ¬ allow_trip_cancellation then
    .error { code := 403,
             detail := "Cannot cancel ride while in progress. This feature is disabled." }
  else
    let charge_applicable : Bool := ride.status = "in_progress"
    let charge_amount : ℚ := if charge_applicable then cancellation_fee else 0
    if ride.status = "completed" || ride.status = "cancelled" then
      .ok { ride := ride, driver := driver, queue := queue, events := [],
            result := { success := true, reason := none,
                        message := "Ride already " ++ ride.status,
                        charge_applicable := none, charge_amount := none } }
    else
      let was_unassigned : Bool := ride.driver_id = none
      let ride' := { ride with
        status := "cancelled",
        cancelled_at := some now,
        cancellation_reason := some
          (if reason_detail ≠ "" then reason ++ " - " ++ reason_detail else reason),
        cancelled_by := some (if is_rider then "rider" else "driver"),
        cancellation_charge :=
          if charge_applicable then some charge_amount else ride.cancellation_charge,
        updated_at := some now }
      .ok { ride := ride', driver := driver.map fun d => { d with is_available := true },
            queue := dremove queue ride.id,
            events := [Event.ride_cancelled_broadcast ride.id],
            result := { success := true,
                        reason := some (if was_unassigned then "cancelled_unassigned"
                                        else "cancelled_assigned"),
                        message := "Ride cancelled successfully",
                        charge_applicable := some charge_applicable,
                        charge_amount := some charge_amount } }

/-- The JSON body returned by `retry_assign_driver`. -/
structure RetryResult where
  success : Bool
  driver_assigned : Option Bool
  reason : Option String
  attempts : Option Nat
  available_drivers : Option Nat
  message : String
deriving DecidableEq

/-- Output state of `retry_assign_driver`: the saved ride, the saved
driver record when one was assigned, the queue, and the messages. -/
structure RetryOutput where
  ride : Ride
  driver_update : Option UserRec
  queue : Queue
  events : List Event
  result : RetryResult
deriving DecidableEq

/-- `age_minutes > PENDING_RIDE_TTL_MINUTES`, guarded by
`if ride.created_at:`. -/
def ttl_expired (now : ℚ) (ride : Ride) : Bool :=
  match ride.created_at with
  | some t => decide (PENDING_RIDE_TTL_MINUTES < (now - t) / 60)
  | none => false

/-- `retry_assign_driver` (`POST /{ride_id}/retry-assign`), for an
existing ride. `nearest_driver` is the result of the MongoDB
nearest-available-driver query and `available_count` the result of the
availability count query (external collaborators). -/
def retry_assign_driver (now : ℚ) (ride : Ride) (current_user_id : String)
    (queue : Queue) (nearest_driver : Option UserRec) (available_count : Nat) :
    Except HTTPError RetryOutput :=
  if ride.rider_id ≠ current_user_id then
    .error { code := 403, detail := "Only the rider can retry assignment" }
  else if ride.status ≠ "pending" then
    .ok { ride := ride, driver_update := none, queue := queue, events := [],
          result := { success := false, driver_assigned := none, reason := none,
                      attempts := none, available_drivers := none,
                      message := "Cannot retry assignment for ride with status: "
                        ++ ride.status } }
  else if ttl_expired now ride then
    let ride' := { ride with
      status := "cancelled", cancelled_at := some now,
      cancellation_reason := some "No driver found within time limit" }
    .ok { ride := ride', driver_update := none, queue := queue,
          events := [Event.no_driver_found ride.id "timeout" ride.rider_id],
          result := { success := false, driver_assigned := none,
                      reason := some "timeout", attempts := none,
                      available_drivers := none,
                      message := "Ride expired - no driver found" } }
  else
    match nearest_driver with
    | some d =>
        let ride' := { ride with
          driver_id := some d.id, status := "accepted", accepted_at := some now }
        .ok { ride := ride', driver_update := some { d with is_available := false },
              queue := dremove queue ride.id,
              events := [Event.ride_accepted ride.id ride.rider_id],
              result := { success := true, driver_assigned := some true,
                          reason := none, attempts := none, available_drivers := none,
                          message := "Driver assigned successfully" } }
    | none =>
        let queue0 :=
          match dlookup queue ride.id with
          | some _ => queue
          | none =>
              dinsert queue ride.id
                { created_at := ride.created_at.getD now, attempts := 0,
                  rider_id := ride.rider_id }
        -- the key is present in queue0 by construction; the default is dead
        let entry := (dlookup queue0 ride.id).getD
          { created_at := now, attempts := 0, rider_id := ride.rider_id }
        let entry' := { entry with attempts := entry.attempts + 1 }
        let queue1 := dinsert queue0 ride.id entry'
        if MAX_ASSIGNMENT_ATTEMPTS ≤ entry'.attempts then
          let ride' := { ride with
            status := "cancelled", cancelled_at := some now,
            cancellation_reason := some "No driver found after multiple attempts" }
          .ok { ride := ride', driver_update := none,
                queue := dremove queue1 ride.id,
                events := [Event.no_driver_found ride.id "max_attempts" ride.rider_id],
                result := { success := false, driver_assigned := none,
                            reason := some "max_attempts",
                            attempts := some entry'.attempts,
                            available_drivers := none,
                            message := "No driver found after maximum attempts" } }
        else
          .ok { ride := ride, driver_update := none, queue := queue1, events := [],
                result := { success := false, driver_assigned := some false,
                            reason := none, attempts := some entry'.attempts,
                            available_drivers := some available_count,
                            message := "No driver available nearby. Will keep trying." } }

end EBoda.ride_routes

namespace EBoda

/-! ### Concrete fixtures used by witnesses and counterexamples -/

/-- A driver session that has just broadcast from the origin at time
0 ms (`last_location_broadcast = 0`, `last_location_coords = (0, 0)`). -/
def throttleConn : ride_socket.ClientConnection :=
  { user_id := "d1", role := "driver", connected_at := 0, last_heartbeat := 0,
    last_activity := 0, is_alive := true, joined_rooms := [],
    last_location_broadcast := 0, last_location_coords := some (0, 0), last_pong := 0 }

/-- A registry with one live rider session for "u1". -/
def connWitnessState : ride_socket.ManagerState :=
  { connections := [("u1", ride_socket.ClientConnection.fresh 0 "u1" "rider")], rooms := [] }

/-- A room table holding the single room "r1" with sole member "u1". -/
def roomWitnessState : ride_socket.ManagerState :=
  { connections := [],
    rooms := [("r1",
      { ride_id := "r1", participants := ["u1"], created_at := 0,
        last_driver_location := none })] }

/-- The rider "u1". -/
def rider1 : UserRec :=
  { id := "u1", role := "rider", is_available := true, is_active := true,
    total_rides := 0, location := none }

/-- The driver "d1". -/
def driver1 : UserRec :=
  { id := "d1", role := "driver", is_available := true, is_active := true,
    total_rides := 0, location := some (0, 0) }

/-- A pending, unassigned ride "r1" of rider "u1", created at time 0. -/
def pendingRide : Ride :=
  { id := "r1", rider_id := "u1", driver_id := none, status := "pending",
    created_at := some 0, accepted_at := none, started_at := none,
    completed_at := none, cancelled_at := none, updated_at := none,
    cancellation_reason := none, cancelled_by := none, cancellation_charge := none,
    estimated_fare := 5000, final_fare := none }

/-- The same ride after completion by driver "d1". -/
def completedRide : Ride :=
  { pendingRide with status := "completed", driver_id := some "d1" }

/-- A `StatusUpdate` body requesting cancellation. -/
def cancelReq : ride_routes.StatusUpdate :=
  { status := "cancelled", cancellation_reason := some "changed plans",
    final_fare := none }

/-! ### Association-list dictionary lemmas -/

theorem mem_dremove_ne {α : Type} {l : List (String × α)} {k : String} {p : String × α}
    (h : p ∈ dremove l k) : p.1 ≠ k := by
  have := List.mem_filter.mp h
  simpa using this.2

theorem dlookup_dremove_self {α : Type} (l : List (String × α)) (k : String) :
    dlookup (dremove l k) k = none := by
  induction l with
  | nil => rfl
  | cons p rest ih =>
    by_cases h : p.1 = k
    · simpa [dremove, dlookup, h] using ih
    · simpa [dremove, dlookup, h] using ih

theorem dlookup_append {α : Type} (l₁ l₂ : List (String × α)) (k : String) :
    dlookup (l₁ ++ l₂) k = ((dlookup l₁ k).orElse (fun _ => dlookup l₂ k)) := by
  induction l₁ with
  | nil => simp [dlookup]
  | cons p rest ih =>
    by_cases h : p.1 = k
    · simp [dlookup, h]
    · simpa [dlookup, h] using ih

theorem dlookup_dinsert_self {α : Type} (l : List (String × α)) (k : String) (v : α) :
    dlookup (dinsert l k v) k = some v := by
  unfold dinsert
  rw [dlookup_append, dlookup_dremove_self]
  simp [dlookup]

theorem dlookup_dremove_ne {α : Type} (l : List (String × α)) {k k' : String} (h : k' ≠ k) :
    dlookup (dremove l k) k' = dlookup l k' := by
  induction l with
  | nil => rfl
  | cons p rest ih =>
    by_cases hp : p.1 = k
    · have h1 : dremove (p :: rest) k = dremove rest k := by
        simp [dremove, List.filter_cons, hp]
      have h2 : dlookup (p :: rest) k' = dlookup rest k' := by
        have hne : ¬ p.1 = k' := by rw [hp]; exact Ne.symm h
        simp [dlookup, hne]
      rw [h1, h2, ih]
    · have h1 : dremove (p :: rest) k = p :: dremove rest k := by
        simp [dremove, List.filter_cons, hp]
      rw [h1]
      by_cases hk : p.1 = k'
      · simp [dlookup, hk]
      · simp [dlookup, hk, ih]

theorem dlookup_dinsert_ne {α : Type} (l : List (String × α)) {k k' : String} (v : α)
    (h : k' ≠ k) : dlookup (dinsert l k v) k' = dlookup l k' := by
  unfold dinsert
  rw [dlookup_append, dlookup_dremove_ne l h]
  cases hl : dlookup l k' with
  | none => simp [dlookup, Ne.symm h]
  | some w => simp

theorem countKey_dinsert_self {α : Type} (l : List (String × α)) (k : String) (v : α) :
    countKey (dinsert l k v) k = 1 := by
  unfold countKey dinsert
  rw [List.filter_append]
  have hnil : (dremove l k).filter (fun p => p.1 = k) = [] := by
    rw [List.filter_eq_nil_iff]
    intro p hp
    simpa using mem_dremove_ne hp
  rw [hnil]
  simp

theorem keysNodup_dremove {α : Type} {l : List (String × α)} (k : String)
    (h : keysNodup l) : keysNodup (dremove l k) := by
  unfold keysNodup at *
  exact ((List.filter_sublist l).map Prod.fst).nodup h

theorem keysNodup_dinsert {α : Type} {l : List (String × α)} (k : String) (v : α)
    (h : keysNodup l) : keysNodup (dinsert l k v) := by
  unfold keysNodup dinsert at *
  rw [List.map_append]
  refine List.Nodup.append (keysNodup_dremove k h) (by simp) ?_
  intro a ha hb
  simp only [List.map_cons, List.map_nil, List.mem_singleton] at hb
  subst hb
  obtain ⟨p, hp, hpk⟩ := List.mem_map.mp ha
  exact mem_dremove_ne hp hpk

/-! ### C1 -/

/-- C1: `validate_ride_transition` (and the identical socket-side
`is_valid_state_transition`) returns true exactly for the pairs of the
transition table — pending→{accepted,cancelled},
accepted→{in_progress,cancelled}, in_progress→{completed,cancelled} —
and false for every other pair, including unknown current statuses
(`completed` and `cancelled` allow no next status at all). -/
theorem transition_table_exact (c n : String) :
    (ride_routes.validate_ride_transition c n = true ↔
      (c = "pending" ∧ (n = "accepted" ∨ n = "cancelled")) ∨
      (c = "accepted" ∧ (n = "in_progress" ∨ n = "cancelled")) ∨
      (c = "in_progress" ∧ (n = "completed" ∨ n = "cancelled")))
    ∧ ride_socket.is_valid_state_transition c n = ride_routes.validate_ride_transition c n := by
  constructor
  · by_cases h1 : c = "pending"
    · subst h1
      simp [ride_routes.validate_ride_transition, ride_routes.VALID_STATE_TRANSITIONS, dlookup]
    · by_cases h2 : c = "accepted"
      · subst h2
        simp [ride_routes.validate_ride_transition, ride_routes.VALID_STATE_TRANSITIONS, dlookup]
      · by_cases h3 : c = "in_progress"
        · subst h3
          simp [ride_routes.validate_ride_transition, ride_routes.VALID_STATE_TRANSITIONS, dlookup]
        · by_cases h4 : c = "completed"
          · subst h4
            simp [ride_routes.validate_ride_transition, ride_routes.VALID_STATE_TRANSITIONS,
              dlookup]
          · by_cases h5 : c = "cancelled"
            · subst h5
              simp [ride_routes.validate_ride_transition, ride_routes.VALID_STATE_TRANSITIONS,
                dlookup]
            · simp [ride_routes.validate_ride_transition, ride_routes.VALID_STATE_TRANSITIONS,
                dlookup, h1, h2, h3, h4, h5, Ne.symm h1, Ne.symm h2, Ne.symm h3, Ne.symm h4,
                Ne.symm h5]
  · rfl

/-! ### C6 -/

/-- C6: with a previous broadcast point recorded, a new coordinate is
suppressed iff less than 400 ms has elapsed since the last broadcast
AND the approximate planar distance to the last point is below 1 m
(compared on squares, as `sqrt d ≥ 1 ↔ d ≥ 1`); in particular a point
0.5 m away 100 ms after the last broadcast is suppressed, while the
identical point 500 ms after the last broadcast is allowed. -/
theorem location_throttle_iff :
    (∀ (c : ride_socket.ClientConnection) (now_ms lat lon prev_lat prev_lon : ℚ),
      c.last_location_coords = some (prev_lat, prev_lon) →
      (c.should_throttle_location now_ms lat lon = true ↔
        now_ms - c.last_location_broadcast < 400 ∧
          (|lat - prev_lat| * 111000) ^ 2 + (|lon - prev_lon| * 111000 * (9 / 10)) ^ 2 < 1))
    ∧ throttleConn.should_throttle_location 100 (1 / 222000) 0 = true
    ∧ throttleConn.should_throttle_location 500 0 0 = false := by
  refine ⟨?_, ?_, ?_⟩
  · intro c now_ms lat lon prev_lat prev_lon hc
    simp only [ride_socket.ClientConnection.should_throttle_location,
      ride_socket.LOCATION_THROTTLE_MS, ride_socket.LOCATION_MIN_DISTANCE_METERS, hc]
    split_ifs with h1 h2
    · exact iff_of_false (by simp) (fun h => absurd h1 (not_le.mpr h.1))
    · exact iff_of_false (by simp) (fun h => absurd h2 (not_le.mpr h.2))
    · exact iff_of_true rfl ⟨not_le.mp h1, not_le.mp h2⟩
  · simp only [ride_socket.ClientConnection.should_throttle_location,
      ride_socket.LOCATION_THROTTLE_MS, ride_socket.LOCATION_MIN_DISTANCE_METERS,
      throttleConn]
    rw [sub_zero, sub_zero, abs_of_nonneg (by norm_num : (0:ℚ) ≤ 1 / 222000)]
    norm_num
  · simp only [ride_socket.ClientConnection.should_throttle_location,
      ride_socket.LOCATION_THROTTLE_MS, ride_socket.LOCATION_MIN_DISTANCE_METERS,
      throttleConn]
    norm_num

/-- C6 witness: the throttle characterisation applied to the state of
`throttleConn` 100 ms after its broadcast. -/
theorem location_throttle_iff_witness :
    throttleConn.should_throttle_location 100 (1 / 222000) 0 = true ↔
      (100 : ℚ) - throttleConn.last_location_broadcast < 400 ∧
        (|(1 / 222000 : ℚ) - 0| * 111000) ^ 2 + (|(0 : ℚ) - 0| * 111000 * (9 / 10)) ^ 2 < 1 :=
  location_throttle_iff.1 throttleConn 100 (1 / 222000) 0 0 0 rfl

/-! ### C7 -/

/-- `leave_room` either leaves the connection table untouched or
rewrites the leaving user's own entry. -/
theorem leave_room_connections_shape (st : ride_socket.ManagerState) (rid uid : String) :
    ((ride_socket.leave_room st rid uid).1).connections = st.connections ∨
    ∃ c', ((ride_socket.leave_room st rid uid).1).connections = dinsert st.connections uid c' := by
  unfold ride_socket.leave_room
  split
  · exact Or.inl rfl
  · dsimp only
    split
    · exact Or.inr ⟨_, rfl⟩
    · exact Or.inl rfl

theorem keysNodup_foldl_leave (uid : String) (rs : List String)
    (st : ride_socket.ManagerState) (h : keysNodup st.connections) :
    keysNodup ((rs.foldl (fun s r => (ride_socket.leave_room s r uid).1) st)).connections := by
  induction rs generalizing st with
  | nil => exact h
  | cons r rest ih =>
      simp only [List.foldl_cons]
      refine ih _ ?_
      rcases leave_room_connections_shape st r uid with hh | ⟨c', hh⟩
      · rw [hh]; exact h
      · rw [hh]; exact keysNodup_dinsert _ _ h

theorem keysNodup_disconnect (st : ride_socket.ManagerState) (uid reason : String)
    (h : keysNodup st.connections) :
    keysNodup ((ride_socket.disconnect st uid reason).1).connections := by
  unfold ride_socket.disconnect
  split
  · exact h
  · exact keysNodup_foldl_leave _ _ _ (keysNodup_dremove _ h)

theorem disconnect_events_of_present (st : ride_socket.ManagerState) (uid reason : String)
    (c : ride_socket.ClientConnection) (h : dlookup st.connections uid = some c) :
    (ride_socket.disconnect st uid reason).2 = [Event.disconnected uid reason] := by
  unfold ride_socket.disconnect
  rw [h]

/-- C7: after `connect(handle, user_id, role)` the registry holds
exactly one (fresh, live) session under `user_id`; key-uniqueness of
the table is preserved; and if a live session for `user_id` existed
beforehand, a disconnect with reason "New connection established" was
issued for it first. -/
theorem single_session_per_user (now : ℚ) (st : ride_socket.ManagerState)
    (uid role : String) (hnd : keysNodup st.connections) :
    countKey ((ride_socket.connect now st uid role).1).connections uid = 1
    ∧ dlookup ((ride_socket.connect now st uid role).1).connections uid
        = some (ride_socket.ClientConnection.fresh now uid role)
    ∧ keysNodup ((ride_socket.connect now st uid role).1).connections
    ∧ ∀ c, dlookup st.connections uid = some c → c.is_alive = true →
        Event.disconnected uid "New connection established"
          ∈ (ride_socket.connect now st uid role).2 := by
  refine ⟨?_, ?_, ?_, ?_⟩
  · exact countKey_dinsert_self _ _ _
  · exact dlookup_dinsert_self _ _ _
  · unfold ride_socket.connect
    split
    · exact keysNodup_dinsert _ _ (keysNodup_disconnect st uid _ hnd)
    · exact keysNodup_dinsert _ _ hnd
  · intro c hc _
    unfold ride_socket.connect
    have hs : (dlookup st.connections uid).isSome = true := by rw [hc]; rfl
    simp only [hs, if_true]
    rw [disconnect_events_of_present st uid _ c hc]
    exact List.mem_singleton.mpr rfl

/-- C7 witness: reconnecting "u1" on `connWitnessState` leaves exactly
one registered session and emits the forced disconnect. -/
theorem single_session_per_user_witness :
    countKey ((ride_socket.connect 5 connWitnessState "u1" "rider").1).connections "u1" = 1
    ∧ dlookup ((ride_socket.connect 5 connWitnessState "u1" "rider").1).connections "u1"
        = some (ride_socket.ClientConnection.fresh 5 "u1" "rider")
    ∧ keysNodup ((ride_socket.connect 5 connWitnessState "u1" "rider").1).connections
    ∧ Event.disconnected "u1" "New connection established"
        ∈ (ride_socket.connect 5 connWitnessState "u1" "rider").2 :=
  have h := single_session_per_user 5 connWitnessState "u1" "rider"
    (by simp [keysNodup, connWitnessState])
  ⟨h.1, h.2.1, h.2.2.1,
   h.2.2.2 (ride_socket.ClientConnection.fresh 0 "u1" "rider") rfl rfl⟩

/-! ### C8 -/

/-- `record_joined_room` installs exactly the room table it is given. -/
theorem record_joined_room_rooms (st : ride_socket.ManagerState)
    (rooms : List (String × ride_socket.RideRoom)) (rid uid : String) :
    (ride_socket.record_joined_room st rooms rid uid).rooms = rooms := by
  unfold ride_socket.record_joined_room
  split <;> rfl

/-- C8: joining an absent ride id creates the room with the joiner as
sole member and reports a fresh join; leaving as the sole remaining
participant deletes the room within the same operation; and
`is_room_active` holds exactly for rooms that exist with a non-empty
participant set. -/
theorem room_lifecycle :
    (∀ (now : ℚ) (st : ride_socket.ManagerState) (rid uid : String),
      dlookup st.rooms rid = none →
      (ride_socket.join_room now st rid uid).2 = true
      ∧ ∃ room, dlookup ((ride_socket.join_room now st rid uid).1).rooms rid = some room
          ∧ room.participants = [uid])
    ∧ (∀ (st : ride_socket.ManagerState) (rid uid : String) (room : ride_socket.RideRoom),
      dlookup st.rooms rid = some room → room.participants = [uid] →
      (ride_socket.leave_room st rid uid).2 = true
      ∧ dlookup ((ride_socket.leave_room st rid uid).1).rooms rid = none)
    ∧ (∀ (st : ride_socket.ManagerState) (rid : String),
      ride_socket.is_room_active st rid = true ↔
        ∃ room, dlookup st.rooms rid = some room ∧ room.participants ≠ []) := by
  refine ⟨?_, ?_, ?_⟩
  · intro now st rid uid h
    unfold ride_socket.join_room
    rw [h]
    refine ⟨rfl, ?_⟩
    refine ⟨{ ride_id := rid, participants := [uid], created_at := now,
              last_driver_location := none }, ?_, rfl⟩
    rw [record_joined_room_rooms, dlookup_dinsert_self]
  · intro st rid uid room h hp
    unfold ride_socket.leave_room
    rw [h]
    dsimp only
    have hempty : (room.participants.filter (fun v => decide (v ≠ uid))).isEmpty = true := by
      rw [hp]; simp
    refine ⟨?_, ?_⟩
    · rfl
    · rw [if_pos]
      · split
        · exact dlookup_dremove_self _ _
        · exact dlookup_dremove_self _ _
      · exact hempty
  · intro st rid
    unfold ride_socket.is_room_active
    cases h : dlookup st.rooms rid with
    | none => simp
    | some room =>
        simp [ride_socket.RideRoom.is_empty, List.isEmpty_iff]

/-- C8 witness: creating a room by joining on an empty registry,
deleting it by removing its last participant, and `is_room_active` on
the one-member room. -/
theorem room_lifecycle_witness :
    ((ride_socket.join_room 0 ride_socket.ManagerState.empty "r1" "u1").2 = true
      ∧ ∃ room,
          dlookup ((ride_socket.join_room 0 ride_socket.ManagerState.empty "r1" "u1").1).rooms
            "r1" = some room ∧ room.participants = ["u1"])
    ∧ ((ride_socket.leave_room roomWitnessState "r1" "u1").2 = true
      ∧ dlookup ((ride_socket.leave_room roomWitnessState "r1" "u1").1).rooms "r1" = none)
    ∧ (ride_socket.is_room_active roomWitnessState "r1" = true ↔
        ∃ room, dlookup roomWitnessState.rooms "r1" = some room ∧ room.participants ≠ []) :=
  ⟨room_lifecycle.1 0 ride_socket.ManagerState.empty "r1" "u1" rfl,
   room_lifecycle.2.1 roomWitnessState "r1" "u1" _ rfl rfl,
   room_lifecycle.2.2 roomWitnessState "r1"⟩

/-! ### C9 -/

/-- C9: a room broadcast with a (truthy) excluded user never targets
that user, targets every other participant of the membership snapshot,
and returns the number of individual sends that succeeded. -/
theorem broadcast_excludes_only (st : ride_socket.ManagerState)
    (transport_ok : String → Bool) (rid u : String) (hu : u ≠ "") :
    u ∉ ride_socket.broadcast_recipients st rid (some u)
    ∧ (∀ v ∈ ride_socket.get_room_participants st rid, v ≠ u →
        v ∈ ride_socket.broadcast_recipients st rid (some u))
    ∧ ride_socket.broadcast_to_room st transport_ok rid (some u)
        = ((ride_socket.broadcast_recipients st rid (some u)).filter
            (ride_socket.send_to_user st transport_ok)).length := by
  refine ⟨?_, ?_, ?_⟩
  · simp [ride_socket.broadcast_recipients, hu]
  · intro v hv hvu
    simp [ride_socket.broadcast_recipients, hu, hv, hvu]
  · unfold ride_socket.broadcast_to_room
    dsimp only
    split
    · next hemp =>
        have hpart : ride_socket.get_room_participants st rid = [] := by
          simpa [List.isEmpty_iff] using hemp
        simp [ride_socket.broadcast_recipients, hu, hpart]
    · rfl

/-- C9 witness: on `roomWitnessState`, broadcasting while excluding
"u1" targets nobody else and counts zero successes. -/
theorem broadcast_excludes_only_witness :
    "u1" ∉ ride_socket.broadcast_recipients roomWitnessState "r1" (some "u1")
    ∧ (∀ v ∈ ride_socket.get_room_participants roomWitnessState "r1", v ≠ "u1" →
        v ∈ ride_socket.broadcast_recipients roomWitnessState "r1" (some "u1"))
    ∧ ride_socket.broadcast_to_room roomWitnessState (fun _ => true) "r1" (some "u1")
        = ((ride_socket.broadcast_recipients roomWitnessState "r1" (some "u1")).filter
            (ride_socket.send_to_user roomWitnessState (fun _ => true))).length :=
  broadcast_excludes_only roomWitnessState (fun _ => true) "r1" "u1" (by decide)

/-! ### C10 -/

/-- C10: cancelling a ride that is already in a terminal state
(completed or cancelled) returns success with message
"Ride already `status`" and changes nothing: the ride record, the
driver record, and the pending queue come back exactly as they went in,
and no message is broadcast (`cancel_ride` never writes the room
table). -/
theorem cancel_terminal_noop (now : ℚ) (allow : Bool) (fee : ℚ) (ride : Ride)
    (driver : Option UserRec) (current_user : UserRec) (reason reason_detail : String)
    (queue : ride_routes.Queue)
    (hauth : ride.rider_id = current_user.id ∨ ride.driver_id = some current_user.id)
    (hterm : ride.status = "completed" ∨ ride.status = "cancelled") :
    ride_routes.cancel_ride now allow fee ride driver current_user reason reason_detail
        queue
      = .ok { ride := ride, driver := driver, queue := queue, events := [],
              result := { success := true, reason := none,
                          message := "Ride already " ++ ride.status,
                          charge_applicable := none, charge_amount := none } } := by
  unfold ride_routes.cancel_ride
  dsimp only
  have hc1 : (decide (ride.rider_id = current_user.id)
      || decide (ride.driver_id = some current_user.id)) = true := by
    rcases hauth with h | h <;> simp [h]
  have hni : ride.status ≠ "in_progress" := by
    rcases hterm with h | h <;> rw [h] <;> decide
  have hc2 : ¬ ((decide (ride.status = "in_progress") && decide (¬ allow)) = true) := by
    simp [hni]
  have hc3 : (decide (ride.status = "completed")
      || decide (ride.status = "cancelled")) = true := by
    rcases hterm with h | h <;> simp [h]
  rw [if_neg (not_not_intro hc1), if_neg hc2, if_pos hc3]

/-- C10 witness: the rider cancelling the already-completed ride. -/
theorem cancel_terminal_noop_witness :
    ride_routes.cancel_ride 900 false 50 completedRide (some driver1) rider1
        "changed plans" "" []
      = .ok { ride := completedRide, driver := some driver1, queue := [], events := [],
              result := { success := true, reason := none,
                          message := "Ride already " ++ completedRide.status,
                          charge_applicable := none, charge_amount := none } } :=
  cancel_terminal_noop 900 false 50 completedRide (some driver1) rider1
    "changed plans" "" [] (Or.inl rfl) (Or.inl rfl)

/-! ### C2 -/

/-- C2 counterexample: `update_ride_status` does not consult the
transition table. The assigned driver requests completed → cancelled —
a pair not in the table — yet the handler mutates the ride to
"cancelled" and reports success instead of rejecting. -/
theorem lifecycle_validation_counterexample :
    ride_routes.validate_ride_transition "completed" "cancelled" = false
    ∧ ∃ out, ride_routes.update_ride_status 1000 completedRide (some driver1) rider1
          driver1 cancelReq [] = .ok out
        ∧ out.ride.status = "cancelled"
        ∧ out.result_success = true :=
  ⟨rfl, ⟨_, rfl, rfl, rfl⟩⟩

/-- C2 amended: the accept, start and complete handlers consult the
transition table and answer any request whose (current, requested) pair
is not in the table with an HTTP 400 error, mutating nothing (the
embedded handlers return only the error); the cancel handler answers
terminal-state requests with an unchanged ride and a success (not
failure) result; and the generic status-update handler does not consult
the table at all: any authorized request (subject only to the
riders-can-only-cancel rule) sets the ride status to the requested
value. -/
theorem lifecycle_validation_amended :
    (∀ (now : ℚ) (ride : Ride) (u : UserRec)
        (rooms : List (String × ride_socket.RideRoom)),
      u.role = "driver" → u.is_available = true →
      ride_routes.validate_ride_transition ride.status "accepted" = false →
      ride_routes.accept_ride now ride u rooms
        = .error { code := 400,
                   detail := "Cannot accept ride with status: " ++ ride.status })
    ∧ (∀ (now : ℚ) (ride : Ride) (uid : String),
      ride.driver_id = some uid →
      ride_routes.validate_ride_transition ride.status "in_progress" = false →
      ride_routes.start_ride now ride uid
        = .error { code := 400,
                   detail := "Cannot start ride with status: " ++ ride.status })
    ∧ (∀ (now : ℚ) (ride : Ride) (u rider : UserRec),
      ride.driver_id = some u.id →
      ride_routes.validate_ride_transition ride.status "completed" = false →
      ride_routes.complete_ride now ride u rider
        = .error { code := 400,
                   detail := "Cannot complete ride with status: " ++ ride.status })
    ∧ (∀ (now : ℚ) (allow : Bool) (fee : ℚ) (ride : Ride) (driver : Option UserRec)
        (u : UserRec) (r rd : String) (queue : ride_routes.Queue),
      (ride.rider_id = u.id ∨ ride.driver_id = some u.id) →
      (ride.status = "completed" ∨ ride.status = "cancelled") →
      ∃ out, ride_routes.cancel_ride now allow fee ride driver u r rd queue = .ok out
        ∧ out.ride = ride ∧ out.result.success = true)
    ∧ (∀ (now : ℚ) (ride : Ride) (driver : Option UserRec) (rider u : UserRec)
        (data : ride_routes.StatusUpdate) (queue : ride_routes.Queue),
      (ride.rider_id = u.id ∨ ride.driver_id = some u.id) →
      (ride.rider_id = u.id → u.role = "rider" → data.status = "cancelled") →
      ∃ out, ride_routes.update_ride_status now ride driver rider u data queue = .ok out
        ∧ out.ride.status = data.status ∧ out.result_success = true) := by
  refine ⟨?_, ?_, ?_, ?_, ?_⟩
  · intro now ride u rooms hrole havail hval
    unfold ride_routes.accept_ride
    rw [if_neg (not_not_intro hrole), if_neg (not_not_intro havail),
      if_pos (by simp [hval])]
  · intro now ride uid hdrv hval
    unfold ride_routes.start_ride
    rw [if_neg (not_not_intro hdrv), if_pos (by simp [hval])]
  · intro now ride u rider hdrv hval
    unfold ride_routes.complete_ride
    rw [if_neg (not_not_intro hdrv), if_pos (by simp [hval])]
  · intro now allow fee ride driver u r rd queue hauth hterm
    unfold ride_routes.cancel_ride
    dsimp only
    have hc1 : (decide (ride.rider_id = u.id)
        || decide (ride.driver_id = some u.id)) = true := by
      rcases hauth with h | h <;> simp [h]
    have hni : ride.status ≠ "in_progress" := by
      rcases hterm with h | h <;> rw [h] <;> decide
    have hc2 : ¬ ((decide (ride.status = "in_progress") && decide (¬ allow)) = true) := by
      simp [hni]
    have hc3 : (decide (ride.status = "completed")
        || decide (ride.status = "cancelled")) = true := by
      rcases hterm with h | h <;> simp [h]
    rw [if_neg (not_not_intro hc1), if_neg hc2, if_pos hc3]
    exact ⟨_, rfl, rfl, rfl⟩
  · intro now ride driver rider u data queue hauth hrule
    unfold ride_routes.update_ride_status
    dsimp only
    have hc1 : (decide (ride.rider_id = u.id)
        || decide (ride.driver_id = some u.id)) = true := by
      rcases hauth with h | h <;> simp [h]
    have hc2 : ¬ ((decide (ride.rider_id = u.id) && decide (u.role = "rider")
        && decide (data.status ≠ "cancelled")) = true) := by
      by_cases hr : ride.rider_id = u.id
      · by_cases hrr : u.role = "rider"
        · simp [hrule hr hrr]
        · simp [hrr]
      · simp [hr]
    rw [if_neg (not_not_intro hc1), if_neg hc2]
    split_ifs <;> exact ⟨_, rfl, rfl, rfl⟩

/-- C2 amended witness: each handler evaluated on the completed ride
"r1" (accept/start/complete reject it with HTTP 400; cancel returns it
unchanged with success; the status update applies completed →
cancelled). -/
theorem lifecycle_validation_amended_witness :
    ride_routes.accept_ride 10 completedRide driver1 []
      = .error { code := 400,
                 detail := "Cannot accept ride with status: " ++ completedRide.status }
    ∧ ride_routes.start_ride 10 completedRide "d1"
      = .error { code := 400,
                 detail := "Cannot start ride with status: " ++ completedRide.status }
    ∧ ride_routes.complete_ride 10 completedRide driver1 rider1
      = .error { code := 400,
                 detail := "Cannot complete ride with status: " ++ completedRide.status }
    ∧ (∃ out, ride_routes.cancel_ride 10 false 50 completedRide (some driver1) rider1
          "" "" [] = .ok out ∧ out.ride = completedRide ∧ out.result.success = true)
    ∧ (∃ out, ride_routes.update_ride_status 10 completedRide (some driver1) rider1
          driver1 cancelReq [] = .ok out ∧ out.ride.status = cancelReq.status
          ∧ out.result_success = true) :=
  have h := lifecycle_validation_amended
  ⟨h.1 10 completedRide driver1 [] rfl rfl rfl,
   h.2.1 10 completedRide "d1" rfl rfl,
   h.2.2.1 10 completedRide driver1 rider1 rfl rfl,
   h.2.2.2.1 10 false 50 completedRide (some driver1) rider1 "" "" []
     (Or.inl rfl) (Or.inl rfl),
   h.2.2.2.2 10 completedRide (some driver1) rider1 driver1 cancelReq []
     (Or.inr rfl) (fun _ hrr => absurd hrr (by decide))⟩

/-! ### C3 -/

/-- C3 counterexample: a retry on the pending ride "r1" at t = 700 s
(11 min 40 s after creation, past the 10-minute TTL) cancels the ride
and notifies the rider with reason timeout, but the PendingAssignment
entry for "r1" is still in the queue afterwards — it is not removed as
the claim states. -/
theorem retry_ttl_queue_not_removed :
    pendingRide.status = "pending"
    ∧ ride_routes.PENDING_RIDE_TTL_MINUTES < ((700 : ℚ) - 0) / 60
    ∧ ∃ out, ride_routes.retry_assign_driver 700 pendingRide "u1"
          [("r1", { created_at := 0, attempts := 2, rider_id := "u1" })] none 0
          = .ok out
        ∧ out.ride.status = "cancelled"
        ∧ out.events = [Event.no_driver_found "r1" "timeout" "u1"]
        ∧ dlookup out.queue "r1"
            = some { created_at := 0, attempts := 2, rider_id := "u1" } := by
  have httl : ride_routes.ttl_expired 700 pendingRide = true := by
    simp only [ride_routes.ttl_expired, pendingRide]
    norm_num [ride_routes.PENDING_RIDE_TTL_MINUTES]
  have hrid : pendingRide.rider_id = "u1" := rfl
  have hst : pendingRide.status = "pending" := rfl
  refine ⟨rfl, by norm_num [ride_routes.PENDING_RIDE_TTL_MINUTES], ?_⟩
  unfold ride_routes.retry_assign_driver
  rw [if_neg (not_not_intro hrid), if_neg (not_not_intro hst), if_pos httl]
  exact ⟨_, rfl, rfl, rfl, rfl⟩

/-- C3 amended: a retry on a pending ride whose age exceeds the
10-minute TTL sets the ride to cancelled (reason "No driver found
within time limit"), notifies the rider with `no_driver_found` /
`timeout`, and reports failure with reason timeout regardless of the
attempt count — but it leaves the pending queue exactly as it was (the
ride's PendingAssignment entry, if any, is not removed). -/
theorem retry_ttl_expired_behavior (now : ℚ) (ride : Ride) (queue : ride_routes.Queue)
    (nearest : Option UserRec) (avail : Nat) (t : ℚ)
    (hstatus : ride.status = "pending")
    (hcreated : ride.created_at = some t)
    (hage : ride_routes.PENDING_RIDE_TTL_MINUTES < (now - t) / 60) :
    ∃ out, ride_routes.retry_assign_driver now ride ride.rider_id queue nearest avail
        = .ok out
      ∧ out.ride.status = "cancelled"
      ∧ out.ride.cancellation_reason = some "No driver found within time limit"
      ∧ out.events = [Event.no_driver_found ride.id "timeout" ride.rider_id]
      ∧ out.result.success = false
      ∧ out.result.reason = some "timeout"
      ∧ out.queue = queue := by
  unfold ride_routes.retry_assign_driver
  have h3 : ride_routes.ttl_expired now ride = true := by
    unfold ride_routes.ttl_expired
    rw [hcreated]
    simpa using hage
  rw [if_neg (not_not_intro rfl), if_neg (not_not_intro hstatus), if_pos h3]
  exact ⟨_, rfl, rfl, rfl, rfl, rfl, rfl, rfl⟩

/-- C3 amended witness: the expired retry of `retry_ttl_queue_not_removed`
obtained through the general statement. -/
theorem retry_ttl_expired_behavior_witness :
    ∃ out, ride_routes.retry_assign_driver 700 pendingRide pendingRide.rider_id
        [("r1", { created_at := 0, attempts := 2, rider_id := "u1" })] none 0
        = .ok out
      ∧ out.ride.status = "cancelled"
      ∧ out.ride.cancellation_reason = some "No driver found within time limit"
      ∧ out.events = [Event.no_driver_found pendingRide.id "timeout" pendingRide.rider_id]
      ∧ out.result.success = false
      ∧ out.result.reason = some "timeout"
      ∧ out.queue = [("r1", { created_at := 0, attempts := 2, rider_id := "u1" })] :=
  retry_ttl_expired_behavior 700 pendingRide
    [("r1", { created_at := 0, attempts := 2, rider_id := "u1" })] none 0 0
    rfl rfl (by norm_num [ride_routes.PENDING_RIDE_TTL_MINUTES])

/-! ### C4 -/

/-- C4: a retry on a pending ride within the TTL that finds no driver
increments the attempt counter (creating the queue entry at 0 first if
absent). If the incremented counter reaches `MAX_ASSIGNMENT_ATTEMPTS`
(5) the ride is cancelled (reason "No driver found after multiple
attempts"), the rider is notified with `no_driver_found` /
`max_attempts`, and the entry is removed; otherwise the ride is left
pending (unchanged) and the result carries the current attempt count
and the number of available drivers. -/
theorem retry_attempt_counting :
    (∀ (now : ℚ) (ride : Ride) (queue : ride_routes.Queue) (avail : Nat),
      ride.status = "pending" →
      ride_routes.ttl_expired now ride = false →
      dlookup queue ride.id = none →
      ∃ out, ride_routes.retry_assign_driver now ride ride.rider_id queue none avail
          = .ok out
        ∧ out.ride = ride
        ∧ out.result.attempts = some 1
        ∧ dlookup out.queue ride.id
            = some { created_at := ride.created_at.getD now, attempts := 1,
                     rider_id := ride.rider_id }
        ∧ out.result.success = false
        ∧ out.result.driver_assigned = some false
        ∧ out.result.available_drivers = some avail
        ∧ out.events = [])
    ∧ (∀ (now : ℚ) (ride : Ride) (queue : ride_routes.Queue) (avail : Nat)
        (e : ride_routes.PendingEntry),
      ride.status = "pending" →
      ride_routes.ttl_expired now ride = false →
      dlookup queue ride.id = some e →
      ∃ out, ride_routes.retry_assign_driver now ride ride.rider_id queue none avail
          = .ok out
        ∧ out.result.attempts = some (e.attempts + 1)
        ∧ (ride_routes.MAX_ASSIGNMENT_ATTEMPTS ≤ e.attempts + 1 →
            out.ride.status = "cancelled"
            ∧ out.ride.cancellation_reason
                = some "No driver found after multiple attempts"
            ∧ out.events = [Event.no_driver_found ride.id "max_attempts" ride.rider_id]
            ∧ dlookup out.queue ride.id = none
            ∧ out.result.reason = some "max_attempts"
            ∧ out.result.success = false)
        ∧ (e.attempts + 1 < ride_routes.MAX_ASSIGNMENT_ATTEMPTS →
            out.ride = ride
            ∧ dlookup out.queue ride.id = some { e with attempts := e.attempts + 1 }
            ∧ out.result.success = false
            ∧ out.result.driver_assigned = some false
            ∧ out.result.available_drivers = some avail
            ∧ out.events = [])) := by
  constructor
  · intro now ride queue avail hstatus httl hq
    unfold ride_routes.retry_assign_driver
    rw [if_neg (not_not_intro rfl), if_neg (not_not_intro hstatus),
      if_neg (by simp [httl])]
    dsimp only
    rw [hq]
    dsimp only
    rw [dlookup_dinsert_self]
    dsimp only [Option.getD]
    rw [if_neg (by decide)]
    exact ⟨_, rfl, rfl, rfl, dlookup_dinsert_self _ _ _, rfl, rfl, rfl, rfl⟩
  · intro now ride queue avail e hstatus httl hq
    unfold ride_routes.retry_assign_driver
    rw [if_neg (not_not_intro rfl), if_neg (not_not_intro hstatus),
      if_neg (by simp [httl])]
    simp only [hq, Option.getD]
    by_cases hmax : ride_routes.MAX_ASSIGNMENT_ATTEMPTS ≤ e.attempts + 1
    · rw [if_pos hmax]
      refine ⟨_, rfl, rfl, fun _ => ⟨rfl, rfl, rfl, dlookup_dremove_self _ _, rfl, rfl⟩,
        fun hlt => absurd hmax (not_le.mpr hlt)⟩
    · rw [if_neg hmax]
      refine ⟨_, rfl, rfl, fun hge => absurd hge hmax,
        fun _ => ⟨rfl, dlookup_dinsert_self _ _ _, rfl, rfl, rfl, rfl⟩⟩

/-- C4 witness: a first failed retry on "r1" (entry created, attempt 1,
three drivers reported), and a fifth failed retry (attempts 4 + 1 = 5)
cancelling the ride with `max_attempts` and dropping the entry. -/
theorem retry_attempt_counting_witness :
    (∃ out, ride_routes.retry_assign_driver 60 pendingRide pendingRide.rider_id [] none 3
        = .ok out
      ∧ out.ride = pendingRide
      ∧ out.result.attempts = some 1
      ∧ dlookup out.queue pendingRide.id
          = some { created_at := pendingRide.created_at.getD 60, attempts := 1,
                   rider_id := pendingRide.rider_id }
      ∧ out.result.success = false
      ∧ out.result.driver_assigned = some false
      ∧ out.result.available_drivers = some 3
      ∧ out.events = [])
    ∧ (∃ out, ride_routes.retry_assign_driver 60 pendingRide pendingRide.rider_id
          [("r1", { created_at := 0, attempts := 4, rider_id := "u1" })] none 0
          = .ok out
      ∧ out.ride.status = "cancelled"
      ∧ out.ride.cancellation_reason = some "No driver found after multiple attempts"
      ∧ out.events
          = [Event.no_driver_found pendingRide.id "max_attempts" pendingRide.rider_id]
      ∧ dlookup out.queue pendingRide.id = none
      ∧ out.result.reason = some "max_attempts"
      ∧ out.result.success = false) :=
  have httl : ride_routes.ttl_expired 60 pendingRide = false := by
    simp only [ride_routes.ttl_expired, pendingRide]
    norm_num [ride_routes.PENDING_RIDE_TTL_MINUTES]
  have h := retry_attempt_counting
  have h1 := h.1 60 pendingRide [] 3 rfl httl rfl
  have h2 := h.2 60 pendingRide
    [("r1", { created_at := 0, attempts := 4, rider_id := "u1" })] 0
    { created_at := 0, attempts := 4, rider_id := "u1" } rfl httl rfl
  ⟨h1, by
    obtain ⟨out, heq, _, hge, _⟩ := h2
    exact ⟨out, heq, (hge (by decide)).1, (hge (by decide)).2.1, (hge (by decide)).2.2.1,
      (hge (by decide)).2.2.2.1, (hge (by decide)).2.2.2.2.1, (hge (by decide)).2.2.2.2.2⟩⟩

/-! ### C5 -/

/-- C5 counterexample: a state reachable through the public operations
in which a PendingAssignment entry exists for a non-pending ride. A
failed retry on the pending ride "r1" (within the TTL, no driver, first
attempt) leaves the ride pending with a queue entry; the rider then
cancels through the generic status-update endpoint, which sets the ride
to cancelled but never touches the pending queue — the entry for "r1"
survives a cancellation. -/
theorem pending_queue_invariant_counterexample :
    ∃ out1 out2,
      ride_routes.retry_assign_driver 60 pendingRide "u1" [] none 3 = .ok out1
      ∧ out1.ride = pendingRide
      ∧ dlookup out1.queue "r1" = some { created_at := 0, attempts := 1, rider_id := "u1" }
      ∧ ride_routes.update_ride_status 120 out1.ride none rider1 rider1 cancelReq
          out1.queue = .ok out2
      ∧ out2.ride.status = "cancelled"
      ∧ dlookup out2.queue "r1"
          = some { created_at := 0, attempts := 1, rider_id := "u1" } := by
  have httl : ride_routes.ttl_expired 60 pendingRide = false := by
    simp only [ride_routes.ttl_expired, pendingRide]
    norm_num [ride_routes.PENDING_RIDE_TTL_MINUTES]
  have hrid : pendingRide.rider_id = "u1" := rfl
  have hst : pendingRide.status = "pending" := rfl
  unfold ride_routes.retry_assign_driver
  rw [if_neg (not_not_intro hrid), if_neg (not_not_intro hst), if_neg (by simp [httl])]
  dsimp only
  rw [show dlookup ([] : ride_routes.Queue) pendingRide.id = none from rfl]
  dsimp only
  rw [dlookup_dinsert_self]
  dsimp only [Option.getD]
  rw [if_neg (by decide : ¬ (ride_routes.MAX_ASSIGNMENT_ATTEMPTS ≤ 0 + 1))]
  exact ⟨_, _, rfl, rfl, dlookup_dinsert_self _ _ _, rfl, rfl, dlookup_dinsert_self _ _ _⟩

/-- C5 amended: the pending queue entry is removed on successful
assignment through retry, on attempt-cap exhaustion, and on
cancellation through the cancel endpoint — but cancellation through the
generic status-update endpoint never touches the queue, and TTL expiry
leaves the queue unchanged, so a PendingAssignment entry can survive
for a cancelled ride. -/
theorem pending_queue_removal_paths :
    (∀ (now : ℚ) (ride : Ride) (queue : ride_routes.Queue) (d : UserRec) (avail : Nat),
      ride.status = "pending" →
      ride_routes.ttl_expired now ride = false →
      ∃ out, ride_routes.retry_assign_driver now ride ride.rider_id queue (some d) avail
          = .ok out
        ∧ out.ride.status = "accepted"
        ∧ dlookup out.queue ride.id = none)
    ∧ (∀ (now : ℚ) (ride : Ride) (queue : ride_routes.Queue) (avail : Nat)
        (e : ride_routes.PendingEntry),
      ride.status = "pending" →
      ride_routes.ttl_expired now ride = false →
      dlookup queue ride.id = some e →
      ride_routes.MAX_ASSIGNMENT_ATTEMPTS ≤ e.attempts + 1 →
      ∃ out, ride_routes.retry_assign_driver now ride ride.rider_id queue none avail
          = .ok out
        ∧ out.ride.status = "cancelled"
        ∧ dlookup out.queue ride.id = none)
    ∧ (∀ (now : ℚ) (allow : Bool) (fee : ℚ) (ride : Ride) (driver : Option UserRec)
        (u : UserRec) (r rd : String) (queue : ride_routes.Queue),
      (ride.rider_id = u.id ∨ ride.driver_id = some u.id) →
      ride.status ≠ "completed" → ride.status ≠ "cancelled" →
      (ride.status = "in_progress" → allow = true) →
      ∃ out, ride_routes.cancel_ride now allow fee ride driver u r rd queue = .ok out
        ∧ out.ride.status = "cancelled"
        ∧ dlookup out.queue ride.id = none)
    ∧ (∀ (now : ℚ) (ride : Ride) (driver : Option UserRec) (rider u : UserRec)
        (data : ride_routes.StatusUpdate) (queue : ride_routes.Queue)
        (out : ride_routes.StatusOutput),
      ride_routes.update_ride_status now ride driver rider u data queue = .ok out →
      out.queue = queue)
    ∧ (∀ (now : ℚ) (ride : Ride) (queue : ride_routes.Queue)
        (nearest : Option UserRec) (avail : Nat),
      ride.status = "pending" →
      ride_routes.ttl_expired now ride = true →
      ∃ out, ride_routes.retry_assign_driver now ride ride.rider_id queue nearest avail
          = .ok out
        ∧ out.ride.status = "cancelled"
        ∧ out.queue = queue) := by
  refine ⟨?_, ?_, ?_, ?_, ?_⟩
  · intro now ride queue d avail hstatus httl
    unfold ride_routes.retry_assign_driver
    rw [if_neg (not_not_intro rfl), if_neg (not_not_intro hstatus),
      if_neg (by simp [httl])]
    exact ⟨_, rfl, rfl, dlookup_dremove_self _ _⟩
  · intro now ride queue avail e hstatus httl hq hcap
    unfold ride_routes.retry_assign_driver
    rw [if_neg (not_not_intro rfl), if_neg (not_not_intro hstatus),
      if_neg (by simp [httl])]
    dsimp only
    simp only [hq, Option.getD]
    rw [if_pos hcap]
    exact ⟨_, rfl, rfl, dlookup_dremove_self _ _⟩
  · intro now allow fee ride driver u r rd queue hauth hnc hnx hip
    unfold ride_routes.cancel_ride
    dsimp only
    have hc1 : (decide (ride.rider_id = u.id)
        || decide (ride.driver_id = some u.id)) = true := by
      rcases hauth with h | h <;> simp [h]
    have hc2 : ¬ ((decide (ride.status = "in_progress") && decide (¬ allow)) = true) := by
      by_cases hsp : ride.status = "in_progress"
      · simp [hip hsp]
      · simp [hsp]
    have hc3 : ¬ ((decide (ride.status = "completed")
        || decide (ride.status = "cancelled")) = true) := by
      simp [hnc, hnx]
    rw [if_neg (not_not_intro hc1), if_neg hc2, if_neg hc3]
    exact ⟨_, rfl, rfl, dlookup_dremove_self _ _⟩
  · intro now ride driver rider u data queue out hout
    unfold ride_routes.update_ride_status at hout
    dsimp only at hout
    split_ifs at hout <;>
      first
        | exact Except.noConfusion hout
        | (simp only [Except.ok.injEq] at hout; subst hout; rfl)
  · intro now ride queue nearest avail hstatus httl
    unfold ride_routes.retry_assign_driver
    rw [if_neg (not_not_intro rfl), if_neg (not_not_intro hstatus), if_pos httl]
    exact ⟨_, rfl, rfl, rfl⟩

/-- C5 amended witness: each removal / non-removal path evaluated on
the pending ride "r1" with the singleton queue entry. -/
theorem pending_queue_removal_paths_witness :
    (∃ out, ride_routes.retry_assign_driver 60 pendingRide pendingRide.rider_id
        [("r1", { created_at := 0, attempts := 2, rider_id := "u1" })] (some driver1) 1
        = .ok out
      ∧ out.ride.status = "accepted"
      ∧ dlookup out.queue pendingRide.id = none)
    ∧ (∃ out, ride_routes.retry_assign_driver 60 pendingRide pendingRide.rider_id
        [("r1", { created_at := 0, attempts := 4, rider_id := "u1" })] none 0
        = .ok out
      ∧ out.ride.status = "cancelled"
      ∧ dlookup out.queue pendingRide.id = none)
    ∧ (∃ out, ride_routes.cancel_ride 60 false 50 pendingRide none rider1 "" ""
        [("r1", { created_at := 0, attempts := 2, rider_id := "u1" })] = .ok out
      ∧ out.ride.status = "cancelled"
      ∧ dlookup out.queue pendingRide.id = none)
    ∧ (∃ out, ride_routes.update_ride_status 120 pendingRide none rider1 rider1 cancelReq
        [("r1", { created_at := 0, attempts := 2, rider_id := "u1" })] = .ok out
      ∧ out.queue = [("r1", { created_at := 0, attempts := 2, rider_id := "u1" })])
    ∧ (∃ out, ride_routes.retry_assign_driver 700 pendingRide pendingRide.rider_id
        [("r1", { created_at := 0, attempts := 2, rider_id := "u1" })] none 0
        = .ok out
      ∧ out.ride.status = "cancelled"
      ∧ out.queue = [("r1", { created_at := 0, attempts := 2, rider_id := "u1" })]) :=
  have httlF : ride_routes.ttl_expired 60 pendingRide = false := by
    simp only [ride_routes.ttl_expired, pendingRide]
    norm_num [ride_routes.PENDING_RIDE_TTL_MINUTES]
  have httlT : ride_routes.ttl_expired 700 pendingRide = true := by
    simp only [ride_routes.ttl_expired, pendingRide]
    norm_num [ride_routes.PENDING_RIDE_TTL_MINUTES]
  have h := pending_queue_removal_paths
  ⟨h.1 60 pendingRide [("r1", { created_at := 0, attempts := 2, rider_id := "u1" })]
     driver1 1 rfl httlF,
   h.2.1 60 pendingRide [("r1", { created_at := 0, attempts := 4, rider_id := "u1" })]
     0 { created_at := 0, attempts := 4, rider_id := "u1" } rfl httlF rfl (by decide),
   h.2.2.1 60 false 50 pendingRide none rider1 "" ""
     [("r1", { created_at := 0, attempts := 2, rider_id := "u1" })]
     (Or.inl rfl) (by decide) (by decide) (fun hip => absurd hip (by decide)),
   ⟨_, rfl, h.2.2.2.1 120 pendingRide none rider1 rider1 cancelReq
     [("r1", { created_at := 0, attempts := 2, rider_id := "u1" })] _ rfl⟩,
   h.2.2.2.2 700 pendingRide
     [("r1", { created_at := 0, attempts := 2, rider_id := "u1" })] none 0 rfl httlT⟩

end EBoda
